import Mathlib

/-!
Shallow embedding of `src/controllers/AuthController.ts` from the
mernspace-c-auth-service repository.

The controller delegates to four collaborators (UserService, TokenService,
CredentialService and the express response object) that are not part of the
source tree; they are modelled as an abstract environment `Env` of oracles,
and every observable action of a handler (service call, token signing,
cookie write) is recorded in an event trace so that ordering and
side-effect properties can be stated.  Each handler is a pure function
`Env -> request -> List Event × Outcome` translated line by line from the
TypeScript source; exceptions thrown by a collaborator are modelled with
`Except` and the surrounding try/catch becomes early return with a
`.nexted` outcome (the `next(err)` call).
-/

deriving instance DecidableEq for Except

/-- A tenant row, as referenced by `user.tenant` in the controller. -/
structure Tenant where
  id : Nat
  deriving DecidableEq, Repr

/-- The identity row returned by the user service, with the fields the
controller reads (`id`, `role`, `tenant`, `firstName`, `lastName`,
`email`) plus the stored password hash used by login. -/
structure User where
  id : Nat
  role : String
  tenant : Option Tenant
  firstName : String
  lastName : String
  email : String
  password : String
  deriving DecidableEq, Repr

/-- A persisted refresh-token record: the store-assigned id and the owning
identity's id. -/
structure RefreshTokenRecord where
  id : Nat
  userId : Nat
  deriving DecidableEq, Repr

/-- The JwtPayload object the controller builds: `sub`, `role`, `tenant`,
`firstName`, `lastName`, `email`, and for refresh tokens an additional
`id` claim (the string-converted refresh-token record id); `none` models
the absence of that field. -/
structure JwtPayload where
  sub : String
  role : String
  tenant : String
  firstName : String
  lastName : String
  email : String
  id : Option String
  deriving DecidableEq, Repr

/-- Modelled from the spec: the token service (not under `src/`) signs
access tokens and refresh tokens; per the spec a signed token is an opaque
string encoding the claims, so signing is modelled as an injective
constructor on the payload. -/
inductive SignedToken where
  | access (payload : JwtPayload)
  | refresh (payload : JwtPayload)
  deriving DecidableEq, Repr

/-- The cookie options object passed to `res.cookie`: `domain`,
`sameSite`, `maxAge` (milliseconds) and `httpOnly`. -/
structure CookieOptions where
  domain : String
  sameSite : String
  maxAge : Nat
  httpOnly : Bool
  deriving DecidableEq, Repr

/-- Errors reaching `next(err)`: controller-made http errors
(`createHttpError(status, message)`) or an error thrown by a collaborator
service (carried as an opaque string). -/
inductive AppError where
  | http (status : Nat) (message : String)
  | svc (e : String)
  deriving DecidableEq, Repr

/-- The terminal observable result of one handler call: the express
validation short-circuit (`res.status(400).json({errors})`), a forwarded
error (`next(err)`), or a json success response carrying the status code
and the `id` field of the body (`none` for the empty logout body). -/
inductive Outcome where
  | badRequest
  | nexted (e : AppError)
  | ok (status : Nat) (id : Option Nat)
  deriving DecidableEq, Repr

/-- The argument object of `userService.create`. -/
structure CreateUserData where
  firstName : String
  lastName : String
  email : String
  password : String
  role : String
  deriving DecidableEq, Repr

/-- One observable action of a handler, in program order: each service
call (with its argument and its result) and each token-service or
response-object interaction. -/
inductive Event where
  | createUser (data : CreateUserData) (result : Except String User)
  | findByEmail (email : String) (result : Except String (Option User))
  | comparePwd (plain hash : String) (result : Except String Bool)
  | findById (id : Option Nat) (result : Except String (Option User))
  | persistRT (userId : Nat) (result : Except String RefreshTokenRecord)
  | deleteRT (id : Option Nat) (result : Except String Unit)
  | signAccess (payload : JwtPayload)
  | signRefresh (payload : JwtPayload)
  | setCookie (name : String) (token : SignedToken) (opts : CookieOptions)
  | clearCookie (name : String)
  deriving DecidableEq, Repr

/-- True exactly on `persistRT` events. -/
def Event.isPersist : Event → Bool
  | .persistRT _ _ => true
  | _ => false

/-- True exactly on `deleteRT` events. -/
def Event.isDelete : Event → Bool
  | .deleteRT _ _ => true
  | _ => false

/-- True exactly on `setCookie` events. -/
def Event.isSetCookie : Event → Bool
  | .setCookie _ _ _ => true
  | _ => false

/-- True exactly on `findById` events. -/
def Event.isFindById : Event → Bool
  | .findById _ _ => true
  | _ => false

/-- True exactly on `signAccess` events. -/
def Event.isSignAccess : Event → Bool
  | .signAccess _ => true
  | _ => false

/-- The body of the json response of `self`: the spread of the user row
with the password property overwritten by `undefined` (modelled `none`);
when `findById` returned no user the spread of `null` leaves every field
absent. -/
structure SelfResponse where
  id : Option Nat
  role : Option String
  tenant : Option Tenant
  firstName : Option String
  lastName : Option String
  email : Option String
  password : Option String
  deriving DecidableEq, Repr

/-- The body of a register/login request. -/
structure RegisterBody where
  firstName : String
  lastName : String
  email : String
  password : String
  deriving DecidableEq, Repr

/-- A register/login request together with the outcome of
`validationResult(req)` (the list of validation errors). -/
structure RegisterRequest where
  validationErrors : List String
  body : RegisterBody
  deriving DecidableEq, Repr

/-- The verified token payload express-jwt attaches as `req.auth`: all
claims are strings, `id` being the refresh-token record id claim. -/
structure AuthPayload where
  sub : String
  role : String
  tenant : String
  firstName : String
  lastName : String
  email : String
  id : String
  deriving DecidableEq, Repr

/-- An authenticated request. -/
structure AuthRequest where
  auth : AuthPayload
  deriving DecidableEq, Repr

/-- JavaScript `Number(s)` applied to the decimal id strings the
controller converts; `none` models `NaN` for a non-numeric string
(sign, fraction and whitespace edge cases are out of scope: the
converted strings are server-produced decimal ids). -/
def jsNumber (s : String) : Option Nat :=
  if s.data.all Char.isDigit ∧ s.data ≠ [] then
    some (s.data.foldl (fun n c => n * 10 + (c.toNat - Char.toNat '0')) 0)
  else none

namespace Roles

/-- Modelled from the spec: `Roles.CUSTOMER` from `src/constants` (not
under `src/`); the spec's concrete scenario expects the role string
`"customer"`. -/
def CUSTOMER : String := "customer"

end Roles

/-- The collaborator services injected into the controller, modelled as
oracles; each fallible call returns `Except String` for a thrown
exception.  `mainDomain` is `Config.MAIN_DOMAIN`. -/
structure Env where
  create : CreateUserData → Except String User
  findByEmailWithPassword : String → Except String (Option User)
  comparePassword : String → String → Except String Bool
  findById : Option Nat → Except String (Option User)
  persistRefreshToken : User → Except String RefreshTokenRecord
  deleteRefreshToken : Option Nat → Except String Unit
  mainDomain : String

/-- The JwtPayload register and login both build from a user row:
`sub = String(user.id)`, `tenant = user.tenant ? String(user.tenant.id) : ""`,
the remaining claims copied; no record-id claim. -/
def userPayload (user : User) : JwtPayload :=
  { sub := toString user.id
    role := user.role
    tenant := match user.tenant with
      | some t => toString t.id
      | none => ""
    firstName := user.firstName
    lastName := user.lastName
    email := user.email
    id := none }

namespace AuthController

/-- `AuthController.register`, translated line by line: validation check,
`userService.create` with role `Roles.CUSTOMER`, payload construction,
`generateAccessToken`, `persistRefreshToken`, `generateRefreshToken` with
the record-id claim, the two `res.cookie` calls and the 201 response;
any thrown error is forwarded through `next`. -/
def register (env : Env) (req : RegisterRequest) : List Event × Outcome :=
  if !req.validationErrors.isEmpty then
    ([], Outcome.badRequest)
  else
    let data : CreateUserData :=
      ⟨req.body.firstName, req.body.lastName, req.body.email,
        req.body.password, Roles.CUSTOMER⟩
    match env.create data with
    | Except.error e =>
        ([Event.createUser data (Except.error e)],
         Outcome.nexted (AppError.svc e))
    | Except.ok user =>
        let payload := userPayload user
        let accessToken := SignedToken.access payload
        match env.persistRefreshToken user with
        | Except.error e =>
            ([Event.createUser data (Except.ok user),
              Event.signAccess payload,
              Event.persistRT user.id (Except.error e)],
             Outcome.nexted (AppError.svc e))
        | Except.ok newRefreshToken =>
            let rpayload :=
              { payload with id := some (toString newRefreshToken.id) }
            ([Event.createUser data (Except.ok user),
              Event.signAccess payload,
              Event.persistRT user.id (Except.ok newRefreshToken),
              Event.signRefresh rpayload,
              Event.setCookie "accessToken" accessToken
                ⟨env.mainDomain, "strict", 1000 * 60 * 60 * 24 * 1, true⟩,
              Event.setCookie "refreshToken" (SignedToken.refresh rpayload)
                ⟨env.mainDomain, "strict", 1000 * 60 * 60 * 24 * 365, true⟩],
             Outcome.ok 201 (some user.id))

/-- `AuthController.login`: validation, `findByEmailWithPassword`, the two
indistinguishable failure branches (no user / password mismatch, both
`createHttpError(400, "Email or password does not match.")`), then the
same issue-and-deliver sequence as register with a 200 json response. -/
def login (env : Env) (req : RegisterRequest) : List Event × Outcome :=
  if !req.validationErrors.isEmpty then
    ([], Outcome.badRequest)
  else
    match env.findByEmailWithPassword req.body.email with
    | Except.error e =>
        ([Event.findByEmail req.body.email (Except.error e)],
         Outcome.nexted (AppError.svc e))
    | Except.ok none =>
        ([Event.findByEmail req.body.email (Except.ok none)],
         Outcome.nexted (AppError.http 400 "Email or password does not match."))
    | Except.ok (some user) =>
        match env.comparePassword req.body.password user.password with
        | Except.error e =>
            ([Event.findByEmail req.body.email (Except.ok (some user)),
              Event.comparePwd req.body.password user.password (Except.error e)],
             Outcome.nexted (AppError.svc e))
        | Except.ok false =>
            ([Event.findByEmail req.body.email (Except.ok (some user)),
              Event.comparePwd req.body.password user.password (Except.ok false)],
             Outcome.nexted (AppError.http 400 "Email or password does not match."))
        | Except.ok true =>
            let payload := userPayload user
            let accessToken := SignedToken.access payload
            match env.persistRefreshToken user with
            | Except.error e =>
                ([Event.findByEmail req.body.email (Except.ok (some user)),
                  Event.comparePwd req.body.password user.password (Except.ok true),
                  Event.signAccess payload,
                  Event.persistRT user.id (Except.error e)],
                 Outcome.nexted (AppError.svc e))
            | Except.ok newRefreshToken =>
                let rpayload :=
                  { payload with id := some (toString newRefreshToken.id) }
                ([Event.findByEmail req.body.email (Except.ok (some user)),
                  Event.comparePwd req.body.password user.password (Except.ok true),
                  Event.signAccess payload,
                  Event.persistRT user.id (Except.ok newRefreshToken),
                  Event.signRefresh rpayload,
                  Event.setCookie "accessToken" accessToken
                    ⟨env.mainDomain, "strict", 1000 * 60 * 60 * 24 * 1, true⟩,
                  Event.setCookie "refreshToken" (SignedToken.refresh rpayload)
                    ⟨env.mainDomain, "strict", 1000 * 60 * 60 * 24 * 365, true⟩],
                 Outcome.ok 200 (some user.id))

/-- `AuthController.self`: look the user up by `Number(req.auth.sub)` and
answer with the spread of the row, password overwritten by `undefined`;
there is no try/catch, so a service error surfaces as `Except.error`. -/
def self (env : Env) (req : AuthRequest) :
    List Event × Except String SelfResponse :=
  match env.findById (jsNumber req.auth.sub) with
  | Except.error e =>
      ([Event.findById (jsNumber req.auth.sub) (Except.error e)],
       Except.error e)
  | Except.ok none =>
      ([Event.findById (jsNumber req.auth.sub) (Except.ok none)],
       Except.ok ⟨none, none, none, none, none, none, none⟩)
  | Except.ok (some user) =>
      ([Event.findById (jsNumber req.auth.sub) (Except.ok (some user))],
       Except.ok ⟨some user.id, some user.role, user.tenant,
         some user.firstName, some user.lastName, some user.email, none⟩)

/-- `AuthController.refresh`: the payload is rebuilt from the presented
token's claims (`req.auth`), the access token is generated from it, then
the identity is re-resolved by `Number(req.auth.sub)` (400 when absent),
a new refresh-token record is persisted, the old record
(`Number(req.auth.id)`) is deleted, the new refresh token is signed with
the new record-id claim, both cookies are set and a 200 json response is
sent; any thrown error is forwarded through `next`. -/
def refresh (env : Env) (req : AuthRequest) : List Event × Outcome :=
  let payload : JwtPayload :=
    ⟨req.auth.sub, req.auth.role, req.auth.tenant, req.auth.firstName,
      req.auth.lastName, req.auth.email, none⟩
  let accessToken := SignedToken.access payload
  match env.findById (jsNumber req.auth.sub) with
  | Except.error e =>
      ([Event.signAccess payload,
        Event.findById (jsNumber req.auth.sub) (Except.error e)],
       Outcome.nexted (AppError.svc e))
  | Except.ok none =>
      ([Event.signAccess payload,
        Event.findById (jsNumber req.auth.sub) (Except.ok none)],
       Outcome.nexted (AppError.http 400 "User with the token could not find"))
  | Except.ok (some user) =>
      match env.persistRefreshToken user with
      | Except.error e =>
          ([Event.signAccess payload,
            Event.findById (jsNumber req.auth.sub) (Except.ok (some user)),
            Event.persistRT user.id (Except.error e)],
           Outcome.nexted (AppError.svc e))
      | Except.ok newRefreshToken =>
          match env.deleteRefreshToken (jsNumber req.auth.id) with
          | Except.error e =>
              ([Event.signAccess payload,
                Event.findById (jsNumber req.auth.sub) (Except.ok (some user)),
                Event.persistRT user.id (Except.ok newRefreshToken),
                Event.deleteRT (jsNumber req.auth.id) (Except.error e)],
               Outcome.nexted (AppError.svc e))
          | Except.ok _ =>
              let rpayload :=
                { payload with id := some (toString newRefreshToken.id) }
              ([Event.signAccess payload,
                Event.findById (jsNumber req.auth.sub) (Except.ok (some user)),
                Event.persistRT user.id (Except.ok newRefreshToken),
                Event.deleteRT (jsNumber req.auth.id) (Except.ok ()),
                Event.signRefresh rpayload,
                Event.setCookie "accessToken" accessToken
                  ⟨env.mainDomain, "strict", 1000 * 60 * 60 * 24 * 1, true⟩,
                Event.setCookie "refreshToken" (SignedToken.refresh rpayload)
                  ⟨env.mainDomain, "strict", 1000 * 60 * 60 * 24 * 365, true⟩],
               Outcome.ok 200 (some user.id))

/-- `AuthController.logout`: delete the refresh-token record identified by
`Number(req.auth.id)`, clear both cookies, answer `{}`; a thrown error is
forwarded through `next` before any cookie is cleared. -/
def logout (env : Env) (req : AuthRequest) : List Event × Outcome :=
  match env.deleteRefreshToken (jsNumber req.auth.id) with
  | Except.error e =>
      ([Event.deleteRT (jsNumber req.auth.id) (Except.error e)],
       Outcome.nexted (AppError.svc e))
  | Except.ok _ =>
      ([Event.deleteRT (jsNumber req.auth.id) (Except.ok ()),
        Event.clearCookie "accessToken",
        Event.clearCookie "refreshToken"],
       Outcome.ok 200 none)

end AuthController

/-! ## Concrete sample inputs for witnesses -/

/-- A sample identity used by the concrete witnesses. -/
def sampleUser : User :=
  ⟨1, "customer", none, "Al", "Bo", "a@b.com", "hash1"⟩

/-- A sample environment in which every collaborator call succeeds: user
ids are 1, persisted refresh-token records get id 5. -/
def sampleEnv : Env :=
  { create := fun d =>
      Except.ok ⟨1, d.role, none, d.firstName, d.lastName, d.email, d.password⟩
    findByEmailWithPassword := fun _ => Except.ok (some sampleUser)
    comparePassword := fun _ _ => Except.ok true
    findById := fun _ => Except.ok (some sampleUser)
    persistRefreshToken := fun u => Except.ok ⟨5, u.id⟩
    deleteRefreshToken := fun _ => Except.ok ()
    mainDomain := "example.com" }

/-- Like `sampleEnv` but no identity is ever found. -/
def noIdentityEnv : Env :=
  { sampleEnv with
    findByEmailWithPassword := fun _ => Except.ok none
    findById := fun _ => Except.ok none }

/-- Like `sampleEnv` but the password comparison always fails. -/
def wrongPasswordEnv : Env :=
  { sampleEnv with comparePassword := fun _ _ => Except.ok false }

/-- Like `sampleEnv` but persisting a refresh-token record throws. -/
def persistFailEnv : Env :=
  { sampleEnv with
    persistRefreshToken := fun _ => Except.error "store down" }

/-- A register/login request that passes validation. -/
def sampleRegisterReq : RegisterRequest :=
  ⟨[], ⟨"Al", "Bo", "a@b.com", "pw"⟩⟩

/-- An authenticated request whose token claims match `sampleUser`. -/
def sampleAuthReq : AuthRequest :=
  ⟨⟨"1", "customer", "", "Al", "Bo", "a@b.com", "9"⟩⟩

/-- An authenticated request whose token still claims role `"admin"`
although the stored identity (in `sampleEnv`) has role `"customer"`. -/
def adminAuthReq : AuthRequest :=
  ⟨⟨"1", "admin", "", "Al", "Bo", "a@b.com", "9"⟩⟩

/-! ## Success-shape helper lemmas -/

/-- If register answered success, the collaborator calls succeeded and the
trace is the full six-event issuance sequence. -/
theorem register_ok_shape (env : Env) (req : RegisterRequest)
    (s : Nat) (b : Option Nat)
    (h : (AuthController.register env req).2 = Outcome.ok s b) :
    ∃ user rec,
      env.create ⟨req.body.firstName, req.body.lastName, req.body.email,
          req.body.password, Roles.CUSTOMER⟩ = Except.ok user ∧
      env.persistRefreshToken user = Except.ok rec ∧
      (AuthController.register env req).1 =
        [Event.createUser ⟨req.body.firstName, req.body.lastName,
            req.body.email, req.body.password, Roles.CUSTOMER⟩
            (Except.ok user),
         Event.signAccess (userPayload user),
         Event.persistRT user.id (Except.ok rec),
         Event.signRefresh { userPayload user with id := some (toString rec.id) },
         Event.setCookie "accessToken" (SignedToken.access (userPayload user))
           ⟨env.mainDomain, "strict", 86400000, true⟩,
         Event.setCookie "refreshToken"
           (SignedToken.refresh { userPayload user with id := some (toString rec.id) })
           ⟨env.mainDomain, "strict", 31536000000, true⟩] ∧
      s = 201 ∧ b = some user.id := by
  cases hv : req.validationErrors.isEmpty with
  | false => simp [AuthController.register, hv] at h
  | true =>
    rcases hc : env.create ⟨req.body.firstName, req.body.lastName,
        req.body.email, req.body.password, Roles.CUSTOMER⟩ with e | user
    · simp [AuthController.register, hv, hc] at h
    · rcases hp : env.persistRefreshToken user with e | rec
      · simp [AuthController.register, hv, hc, hp] at h
      · refine ⟨user, rec, rfl, hp, ?_, ?_, ?_⟩
        · simp [AuthController.register, hv, hc, hp]
        · simp [AuthController.register, hv, hc, hp] at h
          exact h.1.symm
        · simp [AuthController.register, hv, hc, hp] at h
          exact h.2.symm

/-- If login answered success, the lookup, comparison and persistence all
succeeded and the trace is the full seven-event issuance sequence. -/
theorem login_ok_shape (env : Env) (req : RegisterRequest)
    (s : Nat) (b : Option Nat)
    (h : (AuthController.login env req).2 = Outcome.ok s b) :
    ∃ user rec,
      env.findByEmailWithPassword req.body.email = Except.ok (some user) ∧
      env.comparePassword req.body.password user.password = Except.ok true ∧
      env.persistRefreshToken user = Except.ok rec ∧
      (AuthController.login env req).1 =
        [Event.findByEmail req.body.email (Except.ok (some user)),
         Event.comparePwd req.body.password user.password (Except.ok true),
         Event.signAccess (userPayload user),
         Event.persistRT user.id (Except.ok rec),
         Event.signRefresh { userPayload user with id := some (toString rec.id) },
         Event.setCookie "accessToken" (SignedToken.access (userPayload user))
           ⟨env.mainDomain, "strict", 86400000, true⟩,
         Event.setCookie "refreshToken"
           (SignedToken.refresh { userPayload user with id := some (toString rec.id) })
           ⟨env.mainDomain, "strict", 31536000000, true⟩] ∧
      s = 200 ∧ b = some user.id := by
  cases hv : req.validationErrors.isEmpty with
  | false => simp [AuthController.login, hv] at h
  | true =>
    rcases hf : env.findByEmailWithPassword req.body.email with e | u
    · simp [AuthController.login, hv, hf] at h
    · rcases u with _ | user
      · simp [AuthController.login, hv, hf] at h
      · rcases hcmp : env.comparePassword req.body.password user.password
          with e | bv
        · simp [AuthController.login, hv, hf, hcmp] at h
        · cases bv with
          | false => simp [AuthController.login, hv, hf, hcmp] at h
          | true =>
            rcases hp : env.persistRefreshToken user with e | rec
            · simp [AuthController.login, hv, hf, hcmp, hp] at h
            · refine ⟨user, rec, rfl, hcmp, hp, ?_, ?_, ?_⟩
              · simp [AuthController.login, hv, hf, hcmp, hp]
              · simp [AuthController.login, hv, hf, hcmp, hp] at h
                exact h.1.symm
              · simp [AuthController.login, hv, hf, hcmp, hp] at h
                exact h.2.symm

/-- If refresh answered success, the lookup, persistence and deletion all
succeeded and the trace is the full seven-event rotation sequence, the
access token being signed over the presented token's claims. -/
theorem refresh_ok_shape (env : Env) (req : AuthRequest)
    (s : Nat) (b : Option Nat)
    (h : (AuthController.refresh env req).2 = Outcome.ok s b) :
    ∃ user rec,
      env.findById (jsNumber req.auth.sub) = Except.ok (some user) ∧
      env.persistRefreshToken user = Except.ok rec ∧
      env.deleteRefreshToken (jsNumber req.auth.id) = Except.ok () ∧
      (AuthController.refresh env req).1 =
        [Event.signAccess ⟨req.auth.sub, req.auth.role, req.auth.tenant,
            req.auth.firstName, req.auth.lastName, req.auth.email, none⟩,
         Event.findById (jsNumber req.auth.sub) (Except.ok (some user)),
         Event.persistRT user.id (Except.ok rec),
         Event.deleteRT (jsNumber req.auth.id) (Except.ok ()),
         Event.signRefresh ⟨req.auth.sub, req.auth.role, req.auth.tenant,
            req.auth.firstName, req.auth.lastName, req.auth.email,
            some (toString rec.id)⟩,
         Event.setCookie "accessToken"
           (SignedToken.access ⟨req.auth.sub, req.auth.role, req.auth.tenant,
             req.auth.firstName, req.auth.lastName, req.auth.email, none⟩)
           ⟨env.mainDomain, "strict", 86400000, true⟩,
         Event.setCookie "refreshToken"
           (SignedToken.refresh ⟨req.auth.sub, req.auth.role, req.auth.tenant,
             req.auth.firstName, req.auth.lastName, req.auth.email,
             some (toString rec.id)⟩)
           ⟨env.mainDomain, "strict", 31536000000, true⟩] ∧
      s = 200 ∧ b = some user.id := by
  rcases hf : env.findById (jsNumber req.auth.sub) with e | u
  · simp [AuthController.refresh, hf] at h
  · rcases u with _ | user
    · simp [AuthController.refresh, hf] at h
    · rcases hp : env.persistRefreshToken user with e | rec
      · simp [AuthController.refresh, hf, hp] at h
      · rcases hd : env.deleteRefreshToken (jsNumber req.auth.id) with e | uv
        · simp [AuthController.refresh, hf, hp, hd] at h
        · refine ⟨user, rec, rfl, hp, rfl, ?_, ?_, ?_⟩
          · simp [AuthController.refresh, hf, hp, hd]
          · simp [AuthController.refresh, hf, hp, hd] at h
            exact h.1.symm
          · simp [AuthController.refresh, hf, hp, hd] at h
            exact h.2.symm

/-! ## Claim theorems -/

/-- C2: a login where no identity exists for the email and a login where
an identity exists but the password comparison fails produce the
identical outcome — the same 400 error with the same message — so the
caller cannot tell which check failed. -/
theorem login_unknown_email_and_wrong_password_same_error
    (env1 env2 : Env) (req1 req2 : RegisterRequest) (u : User)
    (hv1 : req1.validationErrors.isEmpty = true)
    (hf1 : env1.findByEmailWithPassword req1.body.email = Except.ok none)
    (hv2 : req2.validationErrors.isEmpty = true)
    (hf2 : env2.findByEmailWithPassword req2.body.email = Except.ok (some u))
    (hc2 : env2.comparePassword req2.body.password u.password = Except.ok false) :
    (AuthController.login env1 req1).2 = (AuthController.login env2 req2).2 ∧
    (AuthController.login env1 req1).2 =
      Outcome.nexted (AppError.http 400 "Email or password does not match.") := by
  constructor <;> simp [AuthController.login, hv1, hv2, hf1, hf2, hc2]

/-- Witness for C2: the no-identity environment and the wrong-password
environment answer the very same login error. -/
theorem login_unknown_email_and_wrong_password_same_error_witness :
    (AuthController.login noIdentityEnv sampleRegisterReq).2 =
      (AuthController.login wrongPasswordEnv sampleRegisterReq).2 ∧
    (AuthController.login noIdentityEnv sampleRegisterReq).2 =
      Outcome.nexted (AppError.http 400 "Email or password does not match.") :=
  login_unknown_email_and_wrong_password_same_error noIdentityEnv
    wrongPasswordEnv sampleRegisterReq sampleRegisterReq sampleUser
    rfl rfl rfl rfl rfl

/-- C3: in a register or login flow that reaches the persistence step,
when persisting the refresh-token record throws, the store error is
forwarded through `next` and no cookie at all is set, although the
access token had already been signed. -/
theorem persist_failure_propagates_and_sets_no_cookie
    (env : Env) (req : RegisterRequest) (t : List Event) (o : Outcome)
    (u : User) (e : String)
    (hp : env.persistRefreshToken u = Except.error e)
    (hflow :
      ((t, o) = AuthController.register env req ∧
        req.validationErrors.isEmpty = true ∧
        env.create ⟨req.body.firstName, req.body.lastName, req.body.email,
          req.body.password, Roles.CUSTOMER⟩ = Except.ok u) ∨
      ((t, o) = AuthController.login env req ∧
        req.validationErrors.isEmpty = true ∧
        env.findByEmailWithPassword req.body.email = Except.ok (some u) ∧
        env.comparePassword req.body.password u.password = Except.ok true)) :
    o = Outcome.nexted (AppError.svc e) ∧
    (∀ ev ∈ t, ev.isSetCookie = false) ∧
    (∃ p, Event.signAccess p ∈ t) := by
  rcases hflow with ⟨hto, hv, hc⟩ | ⟨hto, hv, hf, hcmp⟩
  · obtain ⟨ht, ho⟩ : t = (AuthController.register env req).1 ∧
        o = (AuthController.register env req).2 :=
      ⟨congrArg Prod.fst hto, congrArg Prod.snd hto⟩
    subst ht
    subst ho
    refine ⟨?_, ?_, ?_⟩
    · simp [AuthController.register, hv, hc, hp]
    · intro ev hev
      simp [AuthController.register, hv, hc, hp] at hev
      rcases hev with rfl | rfl | rfl <;> simp [Event.isSetCookie]
    · exact ⟨userPayload u, by simp [AuthController.register, hv, hc, hp]⟩
  · obtain ⟨ht, ho⟩ : t = (AuthController.login env req).1 ∧
        o = (AuthController.login env req).2 :=
      ⟨congrArg Prod.fst hto, congrArg Prod.snd hto⟩
    subst ht
    subst ho
    refine ⟨?_, ?_, ?_⟩
    · simp [AuthController.login, hv, hf, hcmp, hp]
    · intro ev hev
      simp [AuthController.login, hv, hf, hcmp, hp] at hev
      rcases hev with rfl | rfl | rfl | rfl <;> simp [Event.isSetCookie]
    · exact ⟨userPayload u, by simp [AuthController.login, hv, hf, hcmp, hp]⟩

/-- Witness for C3: in the environment whose store throws, register
forwards the store error and sets no cookie. -/
theorem persist_failure_propagates_and_sets_no_cookie_witness :
    (AuthController.register persistFailEnv sampleRegisterReq).2 =
      Outcome.nexted (AppError.svc "store down") ∧
    (∀ ev ∈ (AuthController.register persistFailEnv sampleRegisterReq).1,
      ev.isSetCookie = false) ∧
    (∃ p, Event.signAccess p ∈
      (AuthController.register persistFailEnv sampleRegisterReq).1) :=
  persist_failure_propagates_and_sets_no_cookie persistFailEnv
    sampleRegisterReq
    (AuthController.register persistFailEnv sampleRegisterReq).1
    (AuthController.register persistFailEnv sampleRegisterReq).2
    ⟨1, "customer", none, "Al", "Bo", "a@b.com", "pw"⟩ "store down" rfl
    (Or.inl ⟨rfl, rfl, rfl⟩)

/-- C7: when refresh cannot re-resolve the identity by the token's sub,
the 400 error is forwarded and the trace contains no persist, no delete
and no cookie write. -/
theorem refresh_missing_identity_reports_error_no_state_change
    (env : Env) (req : AuthRequest)
    (h : env.findById (jsNumber req.auth.sub) = Except.ok none) :
    (AuthController.refresh env req).2 =
      Outcome.nexted (AppError.http 400 "User with the token could not find") ∧
    ∀ ev ∈ (AuthController.refresh env req).1,
      ev.isPersist = false ∧ ev.isDelete = false ∧ ev.isSetCookie = false := by
  constructor
  · simp [AuthController.refresh, h]
  · intro ev hev
    simp [AuthController.refresh, h] at hev
    rcases hev with rfl | rfl <;>
      simp [Event.isPersist, Event.isDelete, Event.isSetCookie]

/-- Witness for C7 in the no-identity environment. -/
theorem refresh_missing_identity_reports_error_no_state_change_witness :
    (AuthController.refresh noIdentityEnv sampleAuthReq).2 =
      Outcome.nexted (AppError.http 400 "User with the token could not find") ∧
    ∀ ev ∈ (AuthController.refresh noIdentityEnv sampleAuthReq).1,
      ev.isPersist = false ∧ ev.isDelete = false ∧ ev.isSetCookie = false :=
  refresh_missing_identity_reports_error_no_state_change noIdentityEnv
    sampleAuthReq rfl

/-- C10: self resolves the identity by the numeric value of the token's
sub claim, and a successful response never carries the password field. -/
theorem self_response_omits_password (env : Env) (req : AuthRequest)
    (resp : SelfResponse)
    (h : (AuthController.self env req).2 = Except.ok resp) :
    (AuthController.self env req).1 =
      [Event.findById (jsNumber req.auth.sub)
        (env.findById (jsNumber req.auth.sub))] ∧
    resp.password = none := by
  rcases hf : env.findById (jsNumber req.auth.sub) with e | u
  · simp [AuthController.self, hf] at h
  · rcases u with _ | user
    · simp [AuthController.self, hf] at h ⊢
      subst h
      rfl
    · simp [AuthController.self, hf] at h ⊢
      subst h
      rfl

/-- Witness for C10: in the sample environment self answers the user row
without any password field. -/
theorem self_response_omits_password_witness :
    (AuthController.self sampleEnv sampleAuthReq).1 =
      [Event.findById (jsNumber sampleAuthReq.auth.sub)
        (sampleEnv.findById (jsNumber sampleAuthReq.auth.sub))] ∧
    (⟨some 1, some "customer", none, some "Al", some "Bo", some "a@b.com",
        none⟩ : SelfResponse).password = none :=
  self_response_omits_password sampleEnv sampleAuthReq
    ⟨some 1, some "customer", none, some "Al", some "Bo", some "a@b.com", none⟩
    rfl

/-- C4 as the spec states it, at one input: in a refresh call every
identity re-resolution precedes every access-token signing, and the
access token's payload equals the fresh claims built from the
re-resolved identity. -/
def refreshResolvesThenSignsFresh (env : Env) (req : AuthRequest) : Prop :=
  (∀ i j : Nat, ∀ ei ej : Event,
      (AuthController.refresh env req).1.get? i = some ei →
      (AuthController.refresh env req).1.get? j = some ej →
      ei.isSignAccess = true → ej.isFindById = true → j < i) ∧
  ∀ p user, Event.signAccess p ∈ (AuthController.refresh env req).1 →
    env.findById (jsNumber req.auth.sub) = Except.ok (some user) →
    p = userPayload user

/-- Counterexample to C4: with a stored identity whose role is
`"customer"` but a presented token still claiming role `"admin"`, the
refreshed access token carries the token's stale claims, not fresh
claims from the re-resolved identity. -/
theorem refresh_fresh_claims_cex :
    ¬ refreshResolvesThenSignsFresh sampleEnv adminAuthReq := by
  intro h
  have h2 := h.2 ⟨"1", "admin", "", "Al", "Bo", "a@b.com", none⟩ sampleUser
    (by decide) (by decide)
  exact absurd (congrArg JwtPayload.role h2) (by decide)

/-- C4 amended: in every refresh call the new access token is signed over
the claims carried in the presented token, as the very first action of
the flow — before the identity is re-resolved by id. -/
theorem refresh_access_token_from_presented_claims
    (env : Env) (req : AuthRequest) :
    (AuthController.refresh env req).1.head? = some (Event.signAccess
      ⟨req.auth.sub, req.auth.role, req.auth.tenant, req.auth.firstName,
        req.auth.lastName, req.auth.email, none⟩) := by
  rcases hf : env.findById (jsNumber req.auth.sub) with e | u
  · simp [AuthController.refresh, hf]
  · rcases u with _ | user
    · simp [AuthController.refresh, hf]
    · rcases hp : env.persistRefreshToken user with e | rec
      · simp [AuthController.refresh, hf, hp]
      · rcases hd : env.deleteRefreshToken (jsNumber req.auth.id) with e | uv
        · simp [AuthController.refresh, hf, hp, hd]
        · simp [AuthController.refresh, hf, hp, hd]

/-! ## Trace-shape helper lemmas -/

/-- Every refresh trace takes one of four shapes: stopped at the lookup,
stopped at a failed persist, stopped at a failed delete, or the full
seven-event rotation. -/
theorem refresh_trace_shape (env : Env) (req : AuthRequest) :
    (∃ r, (AuthController.refresh env req).1 =
      [Event.signAccess ⟨req.auth.sub, req.auth.role, req.auth.tenant,
          req.auth.firstName, req.auth.lastName, req.auth.email, none⟩,
        Event.findById (jsNumber req.auth.sub) r]) ∨
    (∃ user e, (AuthController.refresh env req).1 =
      [Event.signAccess ⟨req.auth.sub, req.auth.role, req.auth.tenant,
          req.auth.firstName, req.auth.lastName, req.auth.email, none⟩,
        Event.findById (jsNumber req.auth.sub) (Except.ok (some user)),
        Event.persistRT user.id (Except.error e)]) ∨
    (∃ user rec e, (AuthController.refresh env req).1 =
      [Event.signAccess ⟨req.auth.sub, req.auth.role, req.auth.tenant,
          req.auth.firstName, req.auth.lastName, req.auth.email, none⟩,
        Event.findById (jsNumber req.auth.sub) (Except.ok (some user)),
        Event.persistRT user.id (Except.ok rec),
        Event.deleteRT (jsNumber req.auth.id) (Except.error e)]) ∨
    (∃ user rec, (AuthController.refresh env req).1 =
      [Event.signAccess ⟨req.auth.sub, req.auth.role, req.auth.tenant,
          req.auth.firstName, req.auth.lastName, req.auth.email, none⟩,
        Event.findById (jsNumber req.auth.sub) (Except.ok (some user)),
        Event.persistRT user.id (Except.ok rec),
        Event.deleteRT (jsNumber req.auth.id) (Except.ok ()),
        Event.signRefresh ⟨req.auth.sub, req.auth.role, req.auth.tenant,
          req.auth.firstName, req.auth.lastName, req.auth.email,
          some (toString rec.id)⟩,
        Event.setCookie "accessToken"
          (SignedToken.access ⟨req.auth.sub, req.auth.role, req.auth.tenant,
            req.auth.firstName, req.auth.lastName, req.auth.email, none⟩)
          ⟨env.mainDomain, "strict", 86400000, true⟩,
        Event.setCookie "refreshToken"
          (SignedToken.refresh ⟨req.auth.sub, req.auth.role, req.auth.tenant,
            req.auth.firstName, req.auth.lastName, req.auth.email,
            some (toString rec.id)⟩)
          ⟨env.mainDomain, "strict", 31536000000, true⟩]) := by
  rcases hf : env.findById (jsNumber req.auth.sub) with e | u
  · exact Or.inl ⟨Except.error e, by simp [AuthController.refresh, hf]⟩
  · rcases u with _ | user
    · exact Or.inl ⟨Except.ok none, by simp [AuthController.refresh, hf]⟩
    · rcases hp : env.persistRefreshToken user with e | rec
      · exact Or.inr (Or.inl ⟨user, e,
          by simp [AuthController.refresh, hf, hp]⟩)
      · rcases hd : env.deleteRefreshToken (jsNumber req.auth.id) with e | uv
        · exact Or.inr (Or.inr (Or.inl ⟨user, rec, e,
            by simp [AuthController.refresh, hf, hp, hd]⟩))
        · exact Or.inr (Or.inr (Or.inr ⟨user, rec,
            by simp [AuthController.refresh, hf, hp, hd]⟩))

/-- Every register trace takes one of four shapes: empty (validation
stop), stopped at create, stopped at a failed persist, or the full
six-event issuance. -/
theorem register_trace_shape (env : Env) (req : RegisterRequest) :
    (AuthController.register env req).1 = [] ∨
    (∃ e, (AuthController.register env req).1 =
      [Event.createUser ⟨req.body.firstName, req.body.lastName,
          req.body.email, req.body.password, Roles.CUSTOMER⟩
          (Except.error e)]) ∨
    (∃ user e, (AuthController.register env req).1 =
      [Event.createUser ⟨req.body.firstName, req.body.lastName,
          req.body.email, req.body.password, Roles.CUSTOMER⟩
          (Except.ok user),
        Event.signAccess (userPayload user),
        Event.persistRT user.id (Except.error e)]) ∨
    (∃ user rec, (AuthController.register env req).1 =
      [Event.createUser ⟨req.body.firstName, req.body.lastName,
          req.body.email, req.body.password, Roles.CUSTOMER⟩
          (Except.ok user),
        Event.signAccess (userPayload user),
        Event.persistRT user.id (Except.ok rec),
        Event.signRefresh { userPayload user with id := some (toString rec.id) },
        Event.setCookie "accessToken" (SignedToken.access (userPayload user))
          ⟨env.mainDomain, "strict", 86400000, true⟩,
        Event.setCookie "refreshToken"
          (SignedToken.refresh { userPayload user with id := some (toString rec.id) })
          ⟨env.mainDomain, "strict", 31536000000, true⟩]) := by
  cases hv : req.validationErrors.isEmpty with
  | false => exact Or.inl (by simp [AuthController.register, hv])
  | true =>
    rcases hc : env.create ⟨req.body.firstName, req.body.lastName,
        req.body.email, req.body.password, Roles.CUSTOMER⟩ with e | user
    · exact Or.inr (Or.inl ⟨e, by simp [AuthController.register, hv, hc]⟩)
    · rcases hp : env.persistRefreshToken user with e | rec
      · exact Or.inr (Or.inr (Or.inl ⟨user, e,
          by simp [AuthController.register, hv, hc, hp]⟩))
      · exact Or.inr (Or.inr (Or.inr ⟨user, rec,
          by simp [AuthController.register, hv, hc, hp]⟩))

/-- Every login trace takes one of five shapes: empty (validation stop),
stopped at the email lookup, stopped at the password comparison, stopped
at a failed persist, or the full seven-event issuance. -/
theorem login_trace_shape (env : Env) (req : RegisterRequest) :
    (AuthController.login env req).1 = [] ∨
    (∃ r, (AuthController.login env req).1 =
      [Event.findByEmail req.body.email r]) ∨
    (∃ user r, (AuthController.login env req).1 =
      [Event.findByEmail req.body.email (Except.ok (some user)),
        Event.comparePwd req.body.password user.password r]) ∨
    (∃ user e, (AuthController.login env req).1 =
      [Event.findByEmail req.body.email (Except.ok (some user)),
        Event.comparePwd req.body.password user.password (Except.ok true),
        Event.signAccess (userPayload user),
        Event.persistRT user.id (Except.error e)]) ∨
    (∃ user rec, (AuthController.login env req).1 =
      [Event.findByEmail req.body.email (Except.ok (some user)),
        Event.comparePwd req.body.password user.password (Except.ok true),
        Event.signAccess (userPayload user),
        Event.persistRT user.id (Except.ok rec),
        Event.signRefresh { userPayload user with id := some (toString rec.id) },
        Event.setCookie "accessToken" (SignedToken.access (userPayload user))
          ⟨env.mainDomain, "strict", 86400000, true⟩,
        Event.setCookie "refreshToken"
          (SignedToken.refresh { userPayload user with id := some (toString rec.id) })
          ⟨env.mainDomain, "strict", 31536000000, true⟩]) := by
  cases hv : req.validationErrors.isEmpty with
  | false => exact Or.inl (by simp [AuthController.login, hv])
  | true =>
    rcases hf : env.findByEmailWithPassword req.body.email with e | u
    · exact Or.inr (Or.inl ⟨Except.error e,
        by simp [AuthController.login, hv, hf]⟩)
    · rcases u with _ | user
      · exact Or.inr (Or.inl ⟨Except.ok none,
          by simp [AuthController.login, hv, hf]⟩)
      · rcases hcmp : env.comparePassword req.body.password user.password
          with e | bv
        · exact Or.inr (Or.inr (Or.inl ⟨user, Except.error e,
            by simp [AuthController.login, hv, hf, hcmp]⟩))
        · cases bv with
          | false =>
            exact Or.inr (Or.inr (Or.inl ⟨user, Except.ok false,
              by simp [AuthController.login, hv, hf, hcmp]⟩))
          | true =>
            rcases hp : env.persistRefreshToken user with e | rec
            · exact Or.inr (Or.inr (Or.inr (Or.inl ⟨user, e,
                by simp [AuthController.login, hv, hf, hcmp, hp]⟩)))
            · exact Or.inr (Or.inr (Or.inr (Or.inr ⟨user, rec,
                by simp [AuthController.login, hv, hf, hcmp, hp]⟩)))

/-- C1: in every refresh call, any deletion of the old refresh-token
record is strictly preceded by the persistence of the new record, and
every persistence precedes every deletion — the rotation is
create-then-delete, never delete-then-create. -/
theorem refresh_creates_new_record_before_deleting_old
    (env : Env) (req : AuthRequest) (i : Nat) (k : Option Nat)
    (r : Except String Unit)
    (hdel : (AuthController.refresh env req).1.get? i =
      some (Event.deleteRT k r)) :
    (∃ j u rr, j < i ∧ (AuthController.refresh env req).1.get? j =
      some (Event.persistRT u rr)) ∧
    ∀ j u rr, (AuthController.refresh env req).1.get? j =
      some (Event.persistRT u rr) → j < i := by
  rcases refresh_trace_shape env req with ⟨rr, htr⟩ | ⟨user, e, htr⟩ |
    ⟨user, rec, e, htr⟩ | ⟨user, rec, htr⟩ <;> rw [htr] at hdel ⊢
  · rcases i with _ | _ | i <;> simp at hdel
  · rcases i with _ | _ | _ | i <;> simp at hdel
  · rcases i with _ | _ | _ | _ | i
    · simp at hdel
    · simp at hdel
    · simp at hdel
    · refine ⟨⟨2, user.id, Except.ok rec, by omega, by simp⟩, ?_⟩
      intro j u' rr' hj
      rcases j with _ | _ | _ | _ | j
      · simp at hj
      · simp at hj
      · omega
      · simp at hj
      · simp at hj
    · simp at hdel
  · rcases i with _ | _ | _ | _ | _ | _ | _ | i
    · simp at hdel
    · simp at hdel
    · simp at hdel
    · refine ⟨⟨2, user.id, Except.ok rec, by omega, by simp⟩, ?_⟩
      intro j u' rr' hj
      rcases j with _ | _ | _ | _ | _ | _ | _ | j
      · simp at hj
      · simp at hj
      · omega
      · simp at hj
      · simp at hj
      · simp at hj
      · simp at hj
      · simp at hj
    · simp at hdel
    · simp at hdel
    · simp at hdel
    · simp at hdel

/-- Witness for C1: in the sample rotation the deletion sits at index 3
of the trace and the persistence strictly before it. -/
theorem refresh_creates_new_record_before_deleting_old_witness :
    (∃ j u rr, j < 3 ∧
      (AuthController.refresh sampleEnv sampleAuthReq).1.get? j =
        some (Event.persistRT u rr)) ∧
    ∀ j u rr, (AuthController.refresh sampleEnv sampleAuthReq).1.get? j =
      some (Event.persistRT u rr) → j < 3 :=
  refresh_creates_new_record_before_deleting_old sampleEnv sampleAuthReq 3
    (jsNumber sampleAuthReq.auth.id) (Except.ok ()) (by decide)

/-- C5: in register, login and refresh, whenever a refresh token is
signed, a refresh-token record was successfully persisted strictly
earlier in the same flow, and the signed payload's id claim is exactly
that record's id converted to a string. -/
theorem refresh_token_signed_after_persist_embeds_record_id
    (env : Env) (reqB : RegisterRequest) (reqA : AuthRequest)
    (t : List Event) (i : Nat) (p : JwtPayload)
    (ht : t = (AuthController.register env reqB).1 ∨
      t = (AuthController.login env reqB).1 ∨
      t = (AuthController.refresh env reqA).1)
    (hsig : t.get? i = some (Event.signRefresh p)) :
    ∃ j u rec, j < i ∧
      t.get? j = some (Event.persistRT u (Except.ok rec)) ∧
      p.id = some (toString rec.id) := by
  rcases ht with rfl | rfl | rfl
  · rcases register_trace_shape env reqB with htr | ⟨e, htr⟩ |
      ⟨user, e, htr⟩ | ⟨user, rec, htr⟩ <;> rw [htr] at hsig ⊢
    · simp at hsig
    · rcases i with _ | i <;> simp at hsig
    · rcases i with _ | _ | _ | i <;> simp at hsig
    · rcases i with _ | _ | _ | _ | _ | _ | i
      · simp at hsig
      · simp at hsig
      · simp at hsig
      · simp at hsig
        refine ⟨2, user.id, rec, by omega, by simp, ?_⟩
        rw [← hsig]
      · simp at hsig
      · simp at hsig
      · simp at hsig
  · rcases login_trace_shape env reqB with htr | ⟨r, htr⟩ |
      ⟨user, r, htr⟩ | ⟨user, e, htr⟩ | ⟨user, rec, htr⟩ <;>
      rw [htr] at hsig ⊢
    · simp at hsig
    · rcases i with _ | i <;> simp at hsig
    · rcases i with _ | _ | i <;> simp at hsig
    · rcases i with _ | _ | _ | _ | i <;> simp at hsig
    · rcases i with _ | _ | _ | _ | _ | _ | _ | i
      · simp at hsig
      · simp at hsig
      · simp at hsig
      · simp at hsig
      · simp at hsig
        refine ⟨3, user.id, rec, by omega, by simp, ?_⟩
        rw [← hsig]
      · simp at hsig
      · simp at hsig
      · simp at hsig
  · rcases refresh_trace_shape env reqA with ⟨r, htr⟩ | ⟨user, e, htr⟩ |
      ⟨user, rec, e, htr⟩ | ⟨user, rec, htr⟩ <;> rw [htr] at hsig ⊢
    · rcases i with _ | _ | i <;> simp at hsig
    · rcases i with _ | _ | _ | i <;> simp at hsig
    · rcases i with _ | _ | _ | _ | i <;> simp at hsig
    · rcases i with _ | _ | _ | _ | _ | _ | _ | i
      · simp at hsig
      · simp at hsig
      · simp at hsig
      · simp at hsig
      · simp at hsig
        refine ⟨2, user.id, rec, by omega, by simp, ?_⟩
        rw [← hsig]
      · simp at hsig
      · simp at hsig
      · simp at hsig

/-- Witness for C5: in the sample registration the refresh token signed
at index 3 embeds the id of the record persisted at index 2. -/
theorem refresh_token_signed_after_persist_embeds_record_id_witness :
    ∃ j u rec, j < 3 ∧
      (AuthController.register sampleEnv sampleRegisterReq).1.get? j =
        some (Event.persistRT u (Except.ok rec)) ∧
      (JwtPayload.mk "1" "customer" "" "Al" "Bo" "a@b.com" (some "5")).id =
        some (toString rec.id) :=
  refresh_token_signed_after_persist_embeds_record_id sampleEnv
    sampleRegisterReq sampleAuthReq
    (AuthController.register sampleEnv sampleRegisterReq).1 3
    ⟨"1", "customer", "", "Al", "Bo", "a@b.com", some "5"⟩
    (Or.inl rfl) (by decide)

/-- C6: a successful registration created the identity with role
`"customer"`, delivered an access token whose sub claim is the new
identity's id as a string and whose tenant claim is empty exactly when
the identity has no tenant, and persisted a refresh-token record owned
by that identity. -/
theorem register_creates_customer_and_binds_tokens
    (env : Env) (req : RegisterRequest) (s : Nat) (b : Option Nat)
    (h : (AuthController.register env req).2 = Outcome.ok s b) :
    ∃ user rec,
      Event.createUser ⟨req.body.firstName, req.body.lastName,
          req.body.email, req.body.password, "customer"⟩ (Except.ok user) ∈
        (AuthController.register env req).1 ∧
      (∃ p o, Event.setCookie "accessToken" (SignedToken.access p) o ∈
          (AuthController.register env req).1 ∧
        p.sub = toString user.id ∧
        p.tenant = (match user.tenant with
          | some t => toString t.id
          | none => "")) ∧
      Event.persistRT user.id (Except.ok rec) ∈
        (AuthController.register env req).1 := by
  obtain ⟨user, rec, hc, hp, htr, hs, hb⟩ := register_ok_shape env req s b h
  refine ⟨user, rec, ?_, ⟨userPayload user,
    ⟨env.mainDomain, "strict", 86400000, true⟩, ?_, ?_, ?_⟩, ?_⟩
  · rw [htr]
    simp [Roles.CUSTOMER]
  · rw [htr]
    simp
  · simp [userPayload]
  · simp [userPayload]
  · rw [htr]
    simp

/-- Witness for C6 at the sample registration. -/
theorem register_creates_customer_and_binds_tokens_witness :
    ∃ user rec,
      Event.createUser ⟨sampleRegisterReq.body.firstName,
          sampleRegisterReq.body.lastName, sampleRegisterReq.body.email,
          sampleRegisterReq.body.password, "customer"⟩ (Except.ok user) ∈
        (AuthController.register sampleEnv sampleRegisterReq).1 ∧
      (∃ p o, Event.setCookie "accessToken" (SignedToken.access p) o ∈
          (AuthController.register sampleEnv sampleRegisterReq).1 ∧
        p.sub = toString user.id ∧
        p.tenant = (match user.tenant with
          | some t => toString t.id
          | none => "")) ∧
      Event.persistRT user.id (Except.ok rec) ∈
        (AuthController.register sampleEnv sampleRegisterReq).1 :=
  register_creates_customer_and_binds_tokens sampleEnv sampleRegisterReq
    201 (some 1) rfl

/-- C8: a refresh call deletes at most one refresh-token record and a
logout call exactly one, always the record whose id the presented token
carries; a logout whose deletion succeeded also clears both token
cookies. -/
theorem refresh_logout_delete_at_most_one_and_logout_clears
    (env : Env) (reqR reqL : AuthRequest) :
    (AuthController.refresh env reqR).1.countP Event.isDelete ≤ 1 ∧
    (∀ k r, Event.deleteRT k r ∈ (AuthController.refresh env reqR).1 →
      k = jsNumber reqR.auth.id) ∧
    (AuthController.logout env reqL).1.countP Event.isDelete = 1 ∧
    (∀ k r, Event.deleteRT k r ∈ (AuthController.logout env reqL).1 →
      k = jsNumber reqL.auth.id) ∧
    (env.deleteRefreshToken (jsNumber reqL.auth.id) = Except.ok () →
      Event.clearCookie "accessToken" ∈ (AuthController.logout env reqL).1 ∧
      Event.clearCookie "refreshToken" ∈ (AuthController.logout env reqL).1) := by
  refine ⟨?_, ?_, ?_, ?_, ?_⟩
  · rcases refresh_trace_shape env reqR with ⟨rr, htr⟩ | ⟨user, e, htr⟩ |
      ⟨user, rec, e, htr⟩ | ⟨user, rec, htr⟩ <;>
      simp [htr, Event.isDelete]
  · intro k r hmem
    rcases refresh_trace_shape env reqR with ⟨rr, htr⟩ | ⟨user, e, htr⟩ |
      ⟨user, rec, e, htr⟩ | ⟨user, rec, htr⟩ <;> rw [htr] at hmem <;>
      simp at hmem <;> tauto
  · rcases hd : env.deleteRefreshToken (jsNumber reqL.auth.id) with e | uv <;>
      simp [AuthController.logout, hd, Event.isDelete]
  · intro k r hmem
    rcases hd : env.deleteRefreshToken (jsNumber reqL.auth.id) with e | uv <;>
      simp [AuthController.logout, hd] at hmem <;> tauto
  · intro hd
    simp [AuthController.logout, hd]

/-- Witness for C8 at the sample rotation and logout. -/
theorem refresh_logout_delete_at_most_one_and_logout_clears_witness :
    (AuthController.refresh sampleEnv sampleAuthReq).1.countP
      Event.isDelete ≤ 1 ∧
    (∀ k r, Event.deleteRT k r ∈
        (AuthController.refresh sampleEnv sampleAuthReq).1 →
      k = jsNumber sampleAuthReq.auth.id) ∧
    (AuthController.logout sampleEnv sampleAuthReq).1.countP
      Event.isDelete = 1 ∧
    (∀ k r, Event.deleteRT k r ∈
        (AuthController.logout sampleEnv sampleAuthReq).1 →
      k = jsNumber sampleAuthReq.auth.id) ∧
    Event.clearCookie "accessToken" ∈
      (AuthController.logout sampleEnv sampleAuthReq).1 ∧
    Event.clearCookie "refreshToken" ∈
      (AuthController.logout sampleEnv sampleAuthReq).1 := by
  obtain ⟨h1, h2, h3, h4, h5⟩ :=
    refresh_logout_delete_at_most_one_and_logout_clears sampleEnv
      sampleAuthReq sampleAuthReq
  exact ⟨h1, h2, h3, h4, (h5 rfl).1, (h5 rfl).2⟩

/-- C9: a successful register, login or refresh delivers both tokens as
cookies on the configured domain with sameSite strict and httpOnly set,
the access-token cookie with maxAge exactly 86400000 ms and the
refresh-token cookie with maxAge exactly 31536000000 ms. -/
theorem success_cookies_domain_strict_httponly_maxage
    (env : Env) (reqB : RegisterRequest) (reqA : AuthRequest)
    (t : List Event) (o : Outcome) (s : Nat) (b : Option Nat)
    (hflow : (t, o) = AuthController.register env reqB ∨
      (t, o) = AuthController.login env reqB ∨
      (t, o) = AuthController.refresh env reqA)
    (hok : o = Outcome.ok s b) :
    (∃ tok, Event.setCookie "accessToken" tok
        ⟨env.mainDomain, "strict", 86400000, true⟩ ∈ t) ∧
    (∃ tok, Event.setCookie "refreshToken" tok
        ⟨env.mainDomain, "strict", 31536000000, true⟩ ∈ t) := by
  rcases hflow with hto | hto | hto
  · obtain ⟨ht, ho⟩ : t = (AuthController.register env reqB).1 ∧
        o = (AuthController.register env reqB).2 :=
      ⟨congrArg Prod.fst hto, congrArg Prod.snd hto⟩
    subst ht
    have h2 : (AuthController.register env reqB).2 = Outcome.ok s b := by
      rw [← ho, hok]
    obtain ⟨u1, r1, -, -, htr, -, -⟩ := register_ok_shape env reqB s b h2
    rw [htr]
    exact ⟨⟨SignedToken.access (userPayload u1), by simp⟩,
      ⟨SignedToken.refresh { userPayload u1 with id := some (toString r1.id) },
        by simp⟩⟩
  · obtain ⟨ht, ho⟩ : t = (AuthController.login env reqB).1 ∧
        o = (AuthController.login env reqB).2 :=
      ⟨congrArg Prod.fst hto, congrArg Prod.snd hto⟩
    subst ht
    have h2 : (AuthController.login env reqB).2 = Outcome.ok s b := by
      rw [← ho, hok]
    obtain ⟨u2, r2, -, -, -, htr, -, -⟩ := login_ok_shape env reqB s b h2
    rw [htr]
    exact ⟨⟨SignedToken.access (userPayload u2), by simp⟩,
      ⟨SignedToken.refresh { userPayload u2 with id := some (toString r2.id) },
        by simp⟩⟩
  · obtain ⟨ht, ho⟩ : t = (AuthController.refresh env reqA).1 ∧
        o = (AuthController.refresh env reqA).2 :=
      ⟨congrArg Prod.fst hto, congrArg Prod.snd hto⟩
    subst ht
    have h2 : (AuthController.refresh env reqA).2 = Outcome.ok s b := by
      rw [← ho, hok]
    obtain ⟨u3, r3, -, -, -, htr, -, -⟩ := refresh_ok_shape env reqA s b h2
    rw [htr]
    exact ⟨⟨SignedToken.access ⟨reqA.auth.sub, reqA.auth.role,
        reqA.auth.tenant, reqA.auth.firstName, reqA.auth.lastName,
        reqA.auth.email, none⟩, by simp⟩,
      ⟨SignedToken.refresh ⟨reqA.auth.sub, reqA.auth.role, reqA.auth.tenant,
        reqA.auth.firstName, reqA.auth.lastName, reqA.auth.email,
        some (toString r3.id)⟩, by simp⟩⟩

/-- Witness for C9: the sample registration succeeds and delivers both
cookies with the specified attributes. -/
theorem success_cookies_domain_strict_httponly_maxage_witness :
    (∃ tok, Event.setCookie "accessToken" tok
        ⟨sampleEnv.mainDomain, "strict", 86400000, true⟩ ∈
        (AuthController.register sampleEnv sampleRegisterReq).1) ∧
    (∃ tok, Event.setCookie "refreshToken" tok
        ⟨sampleEnv.mainDomain, "strict", 31536000000, true⟩ ∈
        (AuthController.register sampleEnv sampleRegisterReq).1) :=
  success_cookies_domain_strict_httponly_maxage sampleEnv
    sampleRegisterReq sampleAuthReq
    (AuthController.register sampleEnv sampleRegisterReq).1
    (AuthController.register sampleEnv sampleRegisterReq).2 201 (some 1)
    (Or.inl rfl) rfl
